import Mathlib

/-!
Shallow embedding of the lilc3 LC-3 simulator (src/src/instruction.rs and
src/src/lib.rs) and verification of its specification claims.

Conventions of the embedding:
* Rust `u16` / `u8` values are `Nat`, with `% 65536` / `% 256` inserted exactly
  where the Rust code performs a wrapping operation or an `as` cast.
* `+` on `u16` is modelled with wrapping semantics (`% 65536`), matching the
  release-profile behaviour that the repository documents (address and PC
  arithmetic is modulo `2^16`).
* Rust panics (`todo!`, `panic!`, `unwrap`, `expect`, array indexing out of
  bounds) are modelled as `Except Panic` errors; a panic aborts the whole
  computation, so the partial mutations preceding a panic are unobservable.
* `u16::to_be` is modelled for a little-endian target (x86-64 / aarch64),
  where it swaps the two bytes; on a big-endian target it is the identity.
  Theorems that depend on it are stated so that they hold under either
  convention, or say explicitly which one they use.
-/

namespace Lilc3

/-- Panic/abort reasons of the Rust code, one constructor per panic site. -/
inductive Panic where
  /-- The `todo!()` fallthrough in `OpCode::from_instruction` for opcode
  values 8, 13 (and values above 15, unreachable for 16-bit words). The
  specification names this failure `UnrecognizedOpcode`. -/
  | unrecognizedOpcode
  /-- The `todo!()` fallthrough in `Instruction::decode` for the
  `Unused`/`Reserved` opcode enum values (unreachable, since
  `OpCode::from_instruction` never returns them). -/
  | unimplementedDecode
  /-- The `panic!("Unrecognized trap code")` in `TrapCode::from_bits`. The
  specification names this failure `UnrecognizedTrapCode`. -/
  | unrecognizedTrapCode
  /-- The `.unwrap()` in `get_nzp` (unreachable: the field is masked to the
  three known condition bits). -/
  | unwrapPanic
  /-- An out-of-bounds array index (memory or register file). -/
  | indexOutOfBounds
  /-- The `.expect(...)` in `read_char` when stdin is exhausted. -/
  | ioError
deriving DecidableEq, Repr

/-- Constant `MAX_MEMORY_SIZE` from src/src/lib.rs: `BusSize::MAX as usize`,
which is 65535 (u16::MAX), not 65536. -/
def MAX_MEMORY_SIZE : Nat := 65535

/-- Constant `PROGRAM_START` from src/src/lib.rs. -/
def PROGRAM_START : Nat := 0x3000

/-- Constant `REGISTER_COUNT` from src/src/lib.rs. -/
def REGISTER_COUNT : Nat := 8

/- The `CondFlag` bitflags values from src/src/lib.rs, modelled as the
underlying `u8` bit masks. -/
namespace CondFlag

def POSITIVE : Nat := 0b1

def NEGATIVE : Nat := 0b10

def ZERO : Nat := 0b100

end CondFlag

/-- Function `CondFlag::from_bits` (bitflags 1.x): `some` exactly when no
unknown bits are present; the known bits are `0b111`. -/
def condFlag_from_bits (b : Nat) : Option Nat :=
  if b &&& 0b111 = b then some b else none

/-- The `OpCode` enum from src/src/instruction.rs. -/
inductive OpCode where
  | Branch | Add | Load | Store | JumpSubRoutine | And
  | LoadBaseOffset | StoreBaseOffset | Unused | Not
  | LoadIndirect | StoreIndirect | Jump | Reserved
  | LoadEffectiveAddress | Trap
deriving DecidableEq, Repr

/-- The discriminant value of each `OpCode` variant (its `repr(u16)` value). -/
def OpCode.toBits : OpCode → Nat
  | .Branch => 0 | .Add => 1 | .Load => 2 | .Store => 3
  | .JumpSubRoutine => 4 | .And => 5 | .LoadBaseOffset => 6
  | .StoreBaseOffset => 7 | .Unused => 8 | .Not => 9
  | .LoadIndirect => 10 | .StoreIndirect => 11 | .Jump => 12
  | .Reserved => 13 | .LoadEffectiveAddress => 14 | .Trap => 15

/-- Function `get_bit_field(instr, start, end)`: bits `start` (inclusive) to
`end` (exclusive) of `instr`. The Rust mask `!(0xFFFF << (end - start))` on
`u16` equals `2^(end-start) - 1` for the widths used (all below 16). -/
def get_bit_field (instr start e : Nat) : Nat :=
  (instr >>> start) &&& (2 ^ (e - start) - 1)

/-- Function `set_bit_field(instr, field, start)`: ORs `field << start` into
`instr`; the `u16` shift keeps only the low 16 bits of the shifted field. -/
def set_bit_field (instr field start : Nat) : Nat :=
  instr ||| ((field <<< start) % 65536)

/-- Function `sign_extend_u16(val, original_length)` from
src/src/instruction.rs: extends only when the value shifted right by
`original_length - 1` is exactly 1. The Rust `0xFFFF << original_length` is a
`u16` shift, hence the `% 65536`. -/
def sign_extend_u16 (val original_length : Nat) : Nat :=
  if val >>> (original_length - 1) = 1 then
    ((0xFFFF <<< original_length) % 65536) ||| val
  else
    val

def get_opcode (instr : Nat) : Nat := get_bit_field instr 12 16

def set_opcode (instr : Nat) (op : OpCode) : Nat := set_bit_field instr op.toBits 12

def get_dr (instr : Nat) : Nat := get_bit_field instr 9 12

def set_dr (instr register : Nat) : Nat := set_bit_field instr register 9

def get_sr1 (instr : Nat) : Nat := get_bit_field instr 6 9

def set_sr1 (instr register : Nat) : Nat := set_bit_field instr register 6

def get_sr2 (instr : Nat) : Nat := get_bit_field instr 0 3

def set_sr2 (instr register : Nat) : Nat := set_bit_field instr register 0

def get_imm5 (instr : Nat) : Nat := sign_extend_u16 (get_bit_field instr 0 5) 5

/-- Function `set_imm5`: place the immediate at bit 0 and set the
immediate-mode flag bit `0b100000`. -/
def set_imm5 (instr imm5 : Nat) : Nat :=
  (set_bit_field instr imm5 0) ||| 0b100000

def get_immediate_mode (instr : Nat) : Nat := get_bit_field instr 5 6

/-- Function `get_nzp`: extracts bits 9 to 12 and unwraps
`CondFlag::from_bits`; the unwrap panic is modelled, though unreachable. -/
def get_nzp (instr : Nat) : Except Panic Nat :=
  match condFlag_from_bits (get_bit_field instr 9 12) with
  | some cond => .ok cond
  | none => .error .unwrapPanic

def set_nzp (instr cond : Nat) : Nat := set_bit_field instr cond 9

/-- Function `get_base_r` as written in the source: it extracts bits 6 to 8
(exclusive), i.e. only TWO bits, although the base-register field of the
LC-3 encoding is the three bits 6 to 9 (exclusive). -/
def get_base_r (instr : Nat) : Nat := get_bit_field instr 6 8

def set_base_r (instr base_r : Nat) : Nat := set_bit_field instr base_r 6

def get_pc_offset_mode (instr : Nat) : Nat := get_bit_field instr 11 12

def set_pc_offset_mode (instr : Nat) : Nat := set_bit_field instr 1 11

/-- Function `get_pc_offset6`: sign-extends the 6-bit field to 16 bits and
then truncates the result to `u8` (the `as u8` cast, modelled as `% 256`). -/
def get_pc_offset6 (instr : Nat) : Nat :=
  (sign_extend_u16 (get_bit_field instr 0 6) 6) % 256

def set_pc_offset6 (instr offset : Nat) : Nat := set_bit_field instr offset 0

def get_pc_offset9 (instr : Nat) : Nat :=
  sign_extend_u16 (get_bit_field instr 0 9) 9

def set_pc_offset9 (instr offset : Nat) : Nat := set_bit_field instr offset 0

/-- Function `get_pc_offset11` as written in the source: it extracts the
11-bit field but calls `sign_extend_u16` with original length 9, not 11. -/
def get_pc_offset11 (instr : Nat) : Nat :=
  sign_extend_u16 (get_bit_field instr 0 11) 9

def set_pc_offset11 (instr offset : Nat) : Nat := set_bit_field instr offset 0

def get_sr (instr : Nat) : Nat := get_bit_field instr 9 12

def set_sr (instr sr : Nat) : Nat := set_bit_field instr sr 9

/-- The `TrapCode` enum from src/src/instruction.rs. -/
inductive TrapCode where
  | GetC | Out | Puts | In | PutsP | Halt
deriving DecidableEq, Repr

/-- The discriminant of each `TrapCode` variant (its `repr(u8)` value). -/
def TrapCode.toBits : TrapCode → Nat
  | .GetC => 0x20 | .Out => 0x21 | .Puts => 0x22
  | .In => 0x23 | .PutsP => 0x24 | .Halt => 0x25

/-- Function `TrapCode::from_bits`: panics on any byte other than the six
defined trap codes `0x20` to `0x25`. -/
def TrapCode.from_bits (bits : Nat) : Except Panic TrapCode :=
  if bits = 0x20 then .ok .GetC
  else if bits = 0x21 then .ok .Out
  else if bits = 0x22 then .ok .Puts
  else if bits = 0x23 then .ok .In
  else if bits = 0x24 then .ok .PutsP
  else if bits = 0x25 then .ok .Halt
  else .error .unrecognizedTrapCode

/-- Function `get_trap_vect8`: bits 0 to 8 of the instruction, passed to
`TrapCode::from_bits` (the `as u8` cast is lossless, the field being 8 bits
wide already). -/
def get_trap_vect8 (instr : Nat) : Except Panic TrapCode :=
  TrapCode.from_bits (get_bit_field instr 0 8)

def set_trap_vect8 (instr : Nat) (trap_code : TrapCode) : Nat :=
  set_bit_field instr trap_code.toBits 0

/-- Function `u16::to_be` on a little-endian target: swap the two bytes.
On a big-endian target `to_be` is the identity; theorems using this function
account for both conventions where the distinction matters. -/
def u16_to_be (v : Nat) : Nat := ((v &&& 0xFF) <<< 8) ||| ((v >>> 8) &&& 0xFF)

/-- Function `OpCode::from_instruction`: the `todo!()` fallthrough (opcode
values 8 and 13) is modelled as the `unrecognizedOpcode` panic. -/
def OpCode.from_instruction (instruction : Nat) : Except Panic OpCode :=
  match get_opcode instruction with
  | 0 => .ok .Branch
  | 1 => .ok .Add
  | 2 => .ok .Load
  | 3 => .ok .Store
  | 4 => .ok .JumpSubRoutine
  | 5 => .ok .And
  | 6 => .ok .LoadBaseOffset
  | 7 => .ok .StoreBaseOffset
  | 9 => .ok .Not
  | 10 => .ok .LoadIndirect
  | 11 => .ok .StoreIndirect
  | 12 => .ok .Jump
  | 14 => .ok .LoadEffectiveAddress
  | 15 => .ok .Trap
  | _ => .error .unrecognizedOpcode

/-- Struct `AddImmediate`. -/
structure AddImmediate where
  dr : Nat
  sr1 : Nat
  imm5 : Nat
deriving DecidableEq, Repr

/-- Struct `AddRegister`. -/
structure AddRegister where
  dr : Nat
  sr1 : Nat
  sr2 : Nat
deriving DecidableEq, Repr

/-- Struct `AndImmediate`. -/
structure AndImmediate where
  dr : Nat
  sr1 : Nat
  imm5 : Nat
deriving DecidableEq, Repr

/-- Struct `AndRegister`. -/
structure AndRegister where
  dr : Nat
  sr1 : Nat
  sr2 : Nat
deriving DecidableEq, Repr

/-- Struct `Branch`: `nzp` is the 3-bit condition mask. -/
structure Branch where
  nzp : Nat
  pc_offset9 : Nat
deriving DecidableEq, Repr

/-- Struct `Jump`. -/
structure Jump where
  base_r : Nat
deriving DecidableEq, Repr

/-- Struct `JumpSubRoutineOffset`. -/
structure JumpSubRoutineOffset where
  pc_offset11 : Nat
deriving DecidableEq, Repr

/-- Struct `JumpSubRoutineRegister`. -/
structure JumpSubRoutineRegister where
  base_r : Nat
deriving DecidableEq, Repr

/-- Struct `Load`. -/
structure Load where
  dr : Nat
  pc_offset9 : Nat
deriving DecidableEq, Repr

/-- Struct `LoadBaseOffset`: `pc_offset6` has Rust type `u8`. -/
structure LoadBaseOffset where
  dr : Nat
  base_r : Nat
  pc_offset6 : Nat
deriving DecidableEq, Repr

/-- Struct `LoadEffectiveAddress`. -/
structure LoadEffectiveAddress where
  dr : Nat
  pc_offset9 : Nat
deriving DecidableEq, Repr

/-- Struct `LoadIndirect`. -/
structure LoadIndirect where
  dr : Nat
  pc_offset9 : Nat
deriving DecidableEq, Repr

/-- Struct `Not`. -/
structure Not where
  dr : Nat
  sr1 : Nat
deriving DecidableEq, Repr

/-- Struct `Store`. -/
structure Store where
  sr : Nat
  pc_offset9 : Nat
deriving DecidableEq, Repr

/-- Struct `StoreBaseOffset`: `pc_offset6` has Rust type `u8`. -/
structure StoreBaseOffset where
  sr : Nat
  base_r : Nat
  pc_offset6 : Nat
deriving DecidableEq, Repr

/-- Struct `StoreIndirect`. -/
structure StoreIndirect where
  sr : Nat
  pc_offset9 : Nat
deriving DecidableEq, Repr

/-- Struct `Trap`. -/
structure Trap where
  vect8 : TrapCode
deriving DecidableEq, Repr

/-- The `Instruction` enum from src/src/instruction.rs. -/
inductive Instruction where
  | AddImmediate (i : AddImmediate)
  | AddRegister (i : AddRegister)
  | AndImmediate (i : AndImmediate)
  | AndRegister (i : AndRegister)
  | Branch (i : Branch)
  | Jump (i : Jump)
  | JumpSubRoutineOffset (i : JumpSubRoutineOffset)
  | JumpSubRoutineRegister (i : JumpSubRoutineRegister)
  | Load (i : Load)
  | LoadBaseOffset (i : LoadBaseOffset)
  | LoadEffectiveAddress (i : LoadEffectiveAddress)
  | LoadIndirect (i : LoadIndirect)
  | Not (i : Not)
  | Store (i : Store)
  | StoreBaseOffset (i : StoreBaseOffset)
  | StoreIndirect (i : StoreIndirect)
  | Trap (i : Trap)
deriving DecidableEq, Repr

/-- Method `AddImmediate::encode`. -/
def AddImmediate.encode (i : AddImmediate) : Nat :=
  let instr := 0
  let instr := set_opcode instr .Add
  let instr := set_dr instr i.dr
  let instr := set_sr1 instr i.sr1
  let instr := set_imm5 instr i.imm5
  u16_to_be instr

/-- Method `AddImmediate::decode`. -/
def AddImmediate.decode (instr : Nat) : AddImmediate :=
  { dr := get_dr instr, sr1 := get_sr1 instr, imm5 := get_imm5 instr }

/-- Method `AddRegister::encode`. -/
def AddRegister.encode (i : AddRegister) : Nat :=
  let instr := 0
  let instr := set_opcode instr .Add
  let instr := set_dr instr i.dr
  let instr := set_sr1 instr i.sr1
  let instr := set_sr2 instr i.sr2
  u16_to_be instr

/-- Method `AddRegister::decode`. -/
def AddRegister.decode (instr : Nat) : AddRegister :=
  { dr := get_dr instr, sr1 := get_sr1 instr, sr2 := get_sr2 instr }

/-- Method `AndImmediate::encode`. -/
def AndImmediate.encode (i : AndImmediate) : Nat :=
  let instr := 0
  let instr := set_opcode instr .And
  let instr := set_dr instr i.dr
  let instr := set_sr1 instr i.sr1
  let instr := set_imm5 instr i.imm5
  u16_to_be instr

/-- Method `AndImmediate::decode` (inline mask and sign extension, equal in
effect to `get_imm5`). -/
def AndImmediate.decode (instr : Nat) : AndImmediate :=
  { dr := get_dr instr, sr1 := get_sr1 instr,
    imm5 := sign_extend_u16 (instr &&& 0x1F) 5 }

/-- Method `AndRegister::encode`. -/
def AndRegister.encode (i : AndRegister) : Nat :=
  let instr := 0
  let instr := set_opcode instr .And
  let instr := set_dr instr i.dr
  let instr := set_sr1 instr i.sr1
  let instr := set_sr2 instr i.sr2
  u16_to_be instr

/-- Method `AndRegister::decode`. -/
def AndRegister.decode (instr : Nat) : AndRegister :=
  { dr := get_dr instr, sr1 := get_sr1 instr, sr2 := get_sr2 instr }

/-- Method `Branch::encode`. -/
def Branch.encode (i : Branch) : Nat :=
  let instr := 0
  let instr := set_opcode instr .Branch
  let instr := set_nzp instr i.nzp
  let instr := set_pc_offset9 instr i.pc_offset9
  u16_to_be instr

/-- Method `Branch::decode` (fallible through the `get_nzp` unwrap). -/
def Branch.decode (instr : Nat) : Except Panic Branch :=
  match get_nzp instr with
  | .error e => .error e
  | .ok nzp => .ok { nzp, pc_offset9 := get_pc_offset9 instr }

/-- Method `Jump::encode`. -/
def Jump.encode (i : Jump) : Nat :=
  let instr := 0
  let instr := set_opcode instr .Jump
  let instr := set_base_r instr i.base_r
  u16_to_be instr

/-- Method `Jump::decode`. -/
def Jump.decode (instr : Nat) : Jump :=
  { base_r := get_base_r instr }

/-- Method `JumpSubRoutineOffset::encode`. -/
def JumpSubRoutineOffset.encode (i : JumpSubRoutineOffset) : Nat :=
  let instr := 0
  let instr := set_opcode instr .JumpSubRoutine
  let instr := set_pc_offset11 instr i.pc_offset11
  let instr := set_pc_offset_mode instr
  u16_to_be instr

/-- Method `JumpSubRoutineOffset::decode`. -/
def JumpSubRoutineOffset.decode (instr : Nat) : JumpSubRoutineOffset :=
  { pc_offset11 := get_pc_offset11 instr }

/-- Method `JumpSubRoutineRegister::encode`. -/
def JumpSubRoutineRegister.encode (i : JumpSubRoutineRegister) : Nat :=
  let instr := 0
  let instr := set_opcode instr .JumpSubRoutine
  let instr := set_base_r instr i.base_r
  u16_to_be instr

/-- Method `JumpSubRoutineRegister::decode`. -/
def JumpSubRoutineRegister.decode (instr : Nat) : JumpSubRoutineRegister :=
  { base_r := get_base_r instr }

/-- Method `Load::encode`. -/
def Load.encode (i : Load) : Nat :=
  let instr := 0
  let instr := set_opcode instr .Load
  let instr := set_dr instr i.dr
  let instr := set_pc_offset9 instr i.pc_offset9
  u16_to_be instr

/-- Method `Load::decode`. -/
def Load.decode (instr : Nat) : Load :=
  { dr := get_dr instr, pc_offset9 := get_pc_offset9 instr }

/-- Method `LoadBaseOffset::encode`. -/
def LoadBaseOffset.encode (i : LoadBaseOffset) : Nat :=
  let instr := 0
  let instr := set_opcode instr .LoadBaseOffset
  let instr := set_dr instr i.dr
  let instr := set_base_r instr i.base_r
  let instr := set_pc_offset6 instr i.pc_offset6
  u16_to_be instr

/-- Method `LoadBaseOffset::decode`. -/
def LoadBaseOffset.decode (instr : Nat) : LoadBaseOffset :=
  { dr := get_dr instr, base_r := get_base_r instr,
    pc_offset6 := get_pc_offset6 instr }

/-- Method `LoadEffectiveAddress::encode`. -/
def LoadEffectiveAddress.encode (i : LoadEffectiveAddress) : Nat :=
  let instr := 0
  let instr := set_opcode instr .LoadEffectiveAddress
  let instr := set_dr instr i.dr
  let instr := set_pc_offset9 instr i.pc_offset9
  u16_to_be instr

/-- Method `LoadEffectiveAddress::decode`. -/
def LoadEffectiveAddress.decode (instr : Nat) : LoadEffectiveAddress :=
  { dr := get_dr instr, pc_offset9 := get_pc_offset9 instr }

/-- Method `LoadIndirect::encode`. -/
def LoadIndirect.encode (i : LoadIndirect) : Nat :=
  let instr := 0
  let instr := set_opcode instr .LoadIndirect
  let instr := set_dr instr i.dr
  let instr := set_pc_offset9 instr i.pc_offset9
  u16_to_be instr

/-- Method `LoadIndirect::decode`. -/
def LoadIndirect.decode (instr : Nat) : LoadIndirect :=
  { dr := get_dr instr, pc_offset9 := get_pc_offset9 instr }

/-- Method `Not::encode`: forces the unused low five bits to all-1. -/
def Not.encode (i : Not) : Nat :=
  let instr := 0
  let instr := set_opcode instr .Not
  let instr := set_dr instr i.dr
  let instr := set_sr1 instr i.sr1
  let instr := instr ||| 0x1F
  u16_to_be instr

/-- Method `Not::decode`. -/
def Not.decode (instr : Nat) : Not :=
  { dr := get_dr instr, sr1 := get_sr1 instr }

/-- Method `Store::encode`. -/
def Store.encode (i : Store) : Nat :=
  let instr := 0
  let instr := set_opcode instr .Store
  let instr := set_sr instr i.sr
  let instr := set_pc_offset9 instr i.pc_offset9
  u16_to_be instr

/-- Method `Store::decode`. -/
def Store.decode (instr : Nat) : Store :=
  { sr := get_sr instr, pc_offset9 := get_pc_offset9 instr }

/-- Method `StoreBaseOffset::encode`. -/
def StoreBaseOffset.encode (i : StoreBaseOffset) : Nat :=
  let instr := 0
  let instr := set_opcode instr .StoreBaseOffset
  let instr := set_sr instr i.sr
  let instr := set_base_r instr i.base_r
  let instr := set_pc_offset6 instr i.pc_offset6
  u16_to_be instr

/-- Method `StoreBaseOffset::decode`. -/
def StoreBaseOffset.decode (instr : Nat) : StoreBaseOffset :=
  { sr := get_sr instr, base_r := get_base_r instr,
    pc_offset6 := get_pc_offset6 instr }

/-- Method `StoreIndirect::encode`. -/
def StoreIndirect.encode (i : StoreIndirect) : Nat :=
  let instr := 0
  let instr := set_opcode instr .StoreIndirect
  let instr := set_sr instr i.sr
  let instr := set_pc_offset9 instr i.pc_offset9
  u16_to_be instr

/-- Method `StoreIndirect::decode`. -/
def StoreIndirect.decode (instr : Nat) : StoreIndirect :=
  { sr := get_sr instr, pc_offset9 := get_pc_offset9 instr }

/-- Method `Trap::encode`. -/
def Trap.encode (i : Trap) : Nat :=
  let instr := 0
  let instr := set_opcode instr .Trap
  let instr := set_trap_vect8 instr i.vect8
  u16_to_be instr

/-- Method `Trap::decode` (fallible: unknown trap vectors panic). -/
def Trap.decode (instr : Nat) : Except Panic Trap :=
  match get_trap_vect8 instr with
  | .error e => .error e
  | .ok vect8 => .ok { vect8 }

/-- Method `Instruction::decode`: dispatch on the opcode, then on the mode
bit for Add/And/JumpSubRoutine. The `todo!()` arm for the `Unused` and
`Reserved` enum values is modelled as `unimplementedDecode`. -/
def Instruction.decode (instr : Nat) : Except Panic Instruction :=
  match OpCode.from_instruction instr with
  | .error e => .error e
  | .ok op =>
    match op with
    | .Add =>
      if get_immediate_mode instr = 1 then
        .ok (.AddImmediate (AddImmediate.decode instr))
      else
        .ok (.AddRegister (AddRegister.decode instr))
    | .And =>
      if get_immediate_mode instr = 1 then
        .ok (.AndImmediate (AndImmediate.decode instr))
      else
        .ok (.AndRegister (AndRegister.decode instr))
    | .Branch =>
      match Branch.decode instr with
      | .error e => .error e
      | .ok b => .ok (.Branch b)
    | .Jump => .ok (.Jump (Jump.decode instr))
    | .JumpSubRoutine =>
      if get_pc_offset_mode instr = 1 then
        .ok (.JumpSubRoutineOffset (JumpSubRoutineOffset.decode instr))
      else
        .ok (.JumpSubRoutineRegister (JumpSubRoutineRegister.decode instr))
    | .Load => .ok (.Load (Load.decode instr))
    | .LoadBaseOffset => .ok (.LoadBaseOffset (LoadBaseOffset.decode instr))
    | .LoadEffectiveAddress =>
      .ok (.LoadEffectiveAddress (LoadEffectiveAddress.decode instr))
    | .LoadIndirect => .ok (.LoadIndirect (LoadIndirect.decode instr))
    | .Not => .ok (.Not (Not.decode instr))
    | .Store => .ok (.Store (Store.decode instr))
    | .StoreBaseOffset => .ok (.StoreBaseOffset (StoreBaseOffset.decode instr))
    | .StoreIndirect => .ok (.StoreIndirect (StoreIndirect.decode instr))
    | .Trap =>
      match Trap.decode instr with
      | .error e => .error e
      | .ok t => .ok (.Trap t)
    | .Unused => .error .unimplementedDecode
    | .Reserved => .error .unimplementedDecode

/-- Method `Instruction::encode`: dispatch to the variant's encode. -/
def Instruction.encode : Instruction → Nat
  | .AddImmediate i => i.encode
  | .AddRegister i => i.encode
  | .AndImmediate i => i.encode
  | .AndRegister i => i.encode
  | .Branch i => i.encode
  | .Jump i => i.encode
  | .JumpSubRoutineOffset i => i.encode
  | .JumpSubRoutineRegister i => i.encode
  | .Load i => i.encode
  | .LoadBaseOffset i => i.encode
  | .LoadEffectiveAddress i => i.encode
  | .LoadIndirect i => i.encode
  | .Not i => i.encode
  | .Store i => i.encode
  | .StoreBaseOffset i => i.encode
  | .StoreIndirect i => i.encode
  | .Trap i => i.encode

/-- The `LC3` machine state from src/src/lib.rs. `memory` models the
`[u16; MAX_MEMORY_SIZE]` array and `registers` the `[u16; 8]` array; reads
and writes go through the bounds-checked accessors below, which panic
(`indexOutOfBounds`) exactly where Rust indexing would. -/
structure LC3 where
  memory : Nat → Nat
  registers : Nat → Nat
  pc : Nat
  cond : Nat
  running : Bool

/-- Method `LC3::new`: all registers zero, PC at `PROGRAM_START`, condition
flag `ZERO`, not running. -/
def LC3.new (memory : Nat → Nat) : LC3 :=
  { memory
    registers := fun _ => 0
    pc := PROGRAM_START
    cond := CondFlag.ZERO
    running := false }

/-- Read `memory[a]`: in bounds iff `a < MAX_MEMORY_SIZE` (65535). -/
def memRead (s : LC3) (a : Nat) : Except Panic Nat :=
  if a < MAX_MEMORY_SIZE then .ok (s.memory a) else .error .indexOutOfBounds

/-- Write `memory[a] = v`: in bounds iff `a < MAX_MEMORY_SIZE` (65535). -/
def memWrite (s : LC3) (a v : Nat) : Except Panic LC3 :=
  if a < MAX_MEMORY_SIZE then
    .ok { s with memory := fun j => if j = a then v else s.memory j }
  else .error .indexOutOfBounds

/-- Read `registers[r]`: in bounds iff `r < REGISTER_COUNT`. -/
def readReg (s : LC3) (r : Nat) : Except Panic Nat :=
  if r < REGISTER_COUNT then .ok (s.registers r) else .error .indexOutOfBounds

/-- The condition-flag computation inside `LC3::set_register`: 0 gives ZERO,
a set high bit gives NEGATIVE, anything else POSITIVE. -/
def condFor (value : Nat) : Nat :=
  if value = 0 then CondFlag.ZERO
  else if value >>> 15 = 1 then CondFlag.NEGATIVE
  else CondFlag.POSITIVE

/-- Method `LC3::set_register`: recompute `cond` from `value`, then store
`value` in `registers[register]` (panicking for an out-of-range index; the
partial cond mutation preceding such a panic is unobservable). -/
def LC3.set_register (s : LC3) (register value : Nat) : Except Panic LC3 :=
  if register < REGISTER_COUNT then
    .ok { s with
          cond := condFor value
          registers := fun j => if j = register then value else s.registers j }
  else .error .indexOutOfBounds

/-- Method `LC3::add_immediate`: 16-bit wrapping add of `registers[sr1]` and
the stored `imm5` field (the Rust code adds as `u32` and truncates with
`as u16`). -/
def LC3.add_immediate (s : LC3) (instr : AddImmediate) : Except Panic LC3 :=
  match readReg s instr.sr1 with
  | .error e => .error e
  | .ok a => s.set_register instr.dr ((a + instr.imm5) % 65536)

/-- Method `LC3::add_register`: 16-bit wrapping add of two registers. -/
def LC3.add_register (s : LC3) (instr : AddRegister) : Except Panic LC3 :=
  match readReg s instr.sr1 with
  | .error e => .error e
  | .ok a =>
    match readReg s instr.sr2 with
    | .error e => .error e
    | .ok b => s.set_register instr.dr ((a + b) % 65536)

/-- Method `LC3::and_immediate`. -/
def LC3.and_immediate (s : LC3) (instr : AndImmediate) : Except Panic LC3 :=
  match readReg s instr.sr1 with
  | .error e => .error e
  | .ok a => s.set_register instr.dr (a &&& instr.imm5)

/-- Method `LC3::and_register`. -/
def LC3.and_register (s : LC3) (instr : AndRegister) : Except Panic LC3 :=
  match readReg s instr.sr1 with
  | .error e => .error e
  | .ok a =>
    match readReg s instr.sr2 with
    | .error e => .error e
    | .ok b => s.set_register instr.dr (a &&& b)

/-- Method `LC3::branch`: add the (already post-increment) offset to the PC
exactly when the instruction's nzp mask intersects the current flag. -/
def LC3.branch (s : LC3) (instr : Branch) : LC3 :=
  if 0 < instr.nzp &&& s.cond then
    { s with pc := (s.pc + instr.pc_offset9) % 65536 }
  else s

/-- Method `LC3::jump`: `pc = registers[base_r]`. -/
def LC3.jump (s : LC3) (instr : Jump) : Except Panic LC3 :=
  match readReg s instr.base_r with
  | .error e => .error e
  | .ok v => .ok { s with pc := v }

/-- Method `LC3::jump_subroutine_offset`: link `registers[7] = pc` WITHOUT a
flag update (a direct array write, not `set_register`), then add the
offset to the PC. -/
def LC3.jump_subroutine_offset (s : LC3) (instr : JumpSubRoutineOffset) : LC3 :=
  { s with
    registers := fun j => if j = 7 then s.pc else s.registers j
    pc := (s.pc + instr.pc_offset11) % 65536 }

/-- Method `LC3::jump_subroutine_register`: link `registers[7] = pc` WITHOUT
a flag update, then `pc = registers[base_r]`. -/
def LC3.jump_subroutine_register (s : LC3) (instr : JumpSubRoutineRegister) :
    Except Panic LC3 :=
  let linked : LC3 :=
    { s with registers := fun j => if j = 7 then s.pc else s.registers j }
  match readReg linked instr.base_r with
  | .error e => .error e
  | .ok v => .ok { linked with pc := v }

/-- Method `LC3::load`: `registers[dr] = memory[pc + pc_offset9]`. -/
def LC3.load (s : LC3) (instr : Load) : Except Panic LC3 :=
  let address := (s.pc + instr.pc_offset9) % 65536
  match memRead s address with
  | .error e => .error e
  | .ok v => s.set_register instr.dr v

/-- Method `LC3::load_base_offset`: the address is `registers[base_r]` plus
the `pc_offset6` field ZERO-extended from `u8` to `u16` (the `as u16` cast
of the `u8` struct field). -/
def LC3.load_base_offset (s : LC3) (instr : LoadBaseOffset) : Except Panic LC3 :=
  match readReg s instr.base_r with
  | .error e => .error e
  | .ok base =>
    let address := (base + instr.pc_offset6) % 65536
    match memRead s address with
    | .error e => .error e
    | .ok v => s.set_register instr.dr v

/-- Method `LC3::load_effective_address`: `registers[dr] = pc + pc_offset9`
(no memory access). -/
def LC3.load_effective_address (s : LC3) (instr : LoadEffectiveAddress) :
    Except Panic LC3 :=
  let address := (s.pc + instr.pc_offset9) % 65536
  s.set_register instr.dr address

/-- Method `LC3::load_indirect`: `registers[dr] = memory[memory[pc + off]]`. -/
def LC3.load_indirect (s : LC3) (instr : LoadIndirect) : Except Panic LC3 :=
  match memRead s ((s.pc + instr.pc_offset9) % 65536) with
  | .error e => .error e
  | .ok address =>
    match memRead s address with
    | .error e => .error e
    | .ok v => s.set_register instr.dr v

/-- Method `LC3::not`: bitwise 16-bit complement of `registers[sr1]` (the
Rust `!` on `u16`; register values are always below `2 ^ 16`). -/
def LC3.not (s : LC3) (instr : Not) : Except Panic LC3 :=
  match readReg s instr.sr1 with
  | .error e => .error e
  | .ok v => s.set_register instr.dr ((v % 65536) ^^^ 0xFFFF)

/-- Method `LC3::store`: `memory[pc + pc_offset9] = registers[sr]`. -/
def LC3.store (s : LC3) (instr : Store) : Except Panic LC3 :=
  let address := (s.pc + instr.pc_offset9) % 65536
  match readReg s instr.sr with
  | .error e => .error e
  | .ok v => memWrite s address v

/-- Method `LC3::store_base_offset`: like `load_base_offset`, the offset is
the `u8` field zero-extended. -/
def LC3.store_base_offset (s : LC3) (instr : StoreBaseOffset) : Except Panic LC3 :=
  match readReg s instr.base_r with
  | .error e => .error e
  | .ok base =>
    let address := (base + instr.pc_offset6) % 65536
    match readReg s instr.sr with
    | .error e => .error e
    | .ok v => memWrite s address v

/-- Method `LC3::store_indirect`. -/
def LC3.store_indirect (s : LC3) (instr : StoreIndirect) : Except Panic LC3 :=
  match memRead s ((s.pc + instr.pc_offset9) % 65536) with
  | .error e => .error e
  | .ok address =>
    match readReg s instr.sr with
    | .error e => .error e
    | .ok v => memWrite s address v

/-- Function `read_char`: pop one byte from stdin, panicking when the stream
is exhausted. -/
def readChar : List Nat → Except Panic (Nat × List Nat)
  | [] => .error .ioError
  | c :: rest => .ok (c, rest)

/-- The `Puts` trap loop: print `memory[addr] as u8 as char` and advance
until a zero word; each read is bounds checked, so the loop terminates (or
panics) before the address reaches `MAX_MEMORY_SIZE`. -/
def putsLoop (s : LC3) (addr : Nat) : Except Panic (List Nat) :=
  if _h : addr < MAX_MEMORY_SIZE then
    let ch := s.memory addr
    if ch = 0 then .ok []
    else
      match putsLoop s (addr + 1) with
      | .error e => .error e
      | .ok rest => .ok (ch % 256 :: rest)
  else .error .indexOutOfBounds
termination_by MAX_MEMORY_SIZE - addr
decreasing_by omega

/-- The `PutsP` trap loop: print the big-endian high byte of each word, stop
before the low byte when it is zero, otherwise print it and advance. -/
def putsPLoop (s : LC3) (addr : Nat) : Except Panic (List Nat) :=
  if _h : addr < MAX_MEMORY_SIZE then
    let ch := s.memory addr
    if ch = 0 then .ok []
    else
      let hi := (ch / 256) % 256
      let lo := ch % 256
      if lo = 0 then .ok [hi]
      else
        match putsPLoop s (addr + 1) with
        | .error e => .error e
        | .ok rest => .ok (hi :: lo :: rest)
  else .error .indexOutOfBounds
termination_by MAX_MEMORY_SIZE - addr
decreasing_by omega

/-- Method `LC3::trap`: returns the machine, the remaining stdin and the
produced output values. `GetC` and `In` write `registers[0]` directly,
without a flag update. Fixed prompt strings and the decimal formatting of
`print!` are not modelled; the output list records the values written. -/
def LC3.trap (s : LC3) (instr : Trap) (stdin : List Nat) :
    Except Panic (LC3 × List Nat × List Nat) :=
  match instr.vect8 with
  | .GetC =>
    match readChar stdin with
    | .error e => .error e
    | .ok (ch, rest) =>
      .ok ({ s with registers := fun j => if j = 0 then ch else s.registers j },
           rest, [])
  | .Halt => .ok ({ s with running := false }, stdin, [])
  | .In =>
    match readChar stdin with
    | .error e => .error e
    | .ok (ch, rest) =>
      .ok ({ s with registers := fun j => if j = 0 then ch else s.registers j },
           rest, [])
  | .Out => .ok (s, stdin, [s.registers 0])
  | .Puts =>
    match putsLoop s (s.registers 0) with
    | .error e => .error e
    | .ok out => .ok (s, stdin, out)
  | .PutsP =>
    match putsPLoop s (s.registers 0) with
    | .error e => .error e
    | .ok out => .ok (s, stdin, out)

/-- Method `LC3::step`: fetch `memory[pc]`, increment the PC (wrapping),
decode, dispatch. A decode failure or an out-of-bounds access aborts the
step. -/
def LC3.step (s : LC3) (stdin : List Nat) :
    Except Panic (LC3 × List Nat × List Nat) :=
  match memRead s s.pc with
  | .error e => .error e
  | .ok raw_instr =>
    let s := { s with pc := (s.pc + 1) % 65536 }
    match Instruction.decode raw_instr with
    | .error e => .error e
    | .ok instr =>
      let pure := fun (r : Except Panic LC3) =>
        match r with
        | .error e => .error e
        | .ok s' => .ok (s', stdin, ([] : List Nat))
      match instr with
      | .AddImmediate i => pure (s.add_immediate i)
      | .AddRegister i => pure (s.add_register i)
      | .AndImmediate i => pure (s.and_immediate i)
      | .AndRegister i => pure (s.and_register i)
      | .Branch i => .ok (s.branch i, stdin, [])
      | .Jump i => pure (s.jump i)
      | .JumpSubRoutineOffset i => .ok (s.jump_subroutine_offset i, stdin, [])
      | .JumpSubRoutineRegister i => pure (s.jump_subroutine_register i)
      | .Load i => pure (s.load i)
      | .LoadBaseOffset i => pure (s.load_base_offset i)
      | .LoadEffectiveAddress i => pure (s.load_effective_address i)
      | .LoadIndirect i => pure (s.load_indirect i)
      | .Not i => pure (s.not i)
      | .Store i => pure (s.store i)
      | .StoreBaseOffset i => pure (s.store_base_offset i)
      | .StoreIndirect i => pure (s.store_indirect i)
      | .Trap i => s.trap i stdin

/-- The `while self.running` loop of `LC3::run`, with explicit fuel. Fuel
exhaustion returns the current state; the claims proved about `run` concern
only error propagation, which fuel exhaustion cannot mask on the first
steps. -/
def LC3.runLoop : Nat → LC3 → List Nat → Except Panic (LC3 × List Nat × List Nat)
  | 0, s, stdin => .ok (s, stdin, [])
  | fuel + 1, s, stdin =>
    if s.running then
      match s.step stdin with
      | .error e => .error e
      | .ok (s', stdin', out) =>
        match LC3.runLoop fuel s' stdin' with
        | .error e => .error e
        | .ok (s'', stdin'', out') => .ok (s'', stdin'', out ++ out')
    else .ok (s, stdin, [])

/-- Method `LC3::run`: set `running = true`, then loop `step` while
`running` holds. -/
def LC3.run (s : LC3) (fuel : Nat) (stdin : List Nat) :
    Except Panic (LC3 × List Nat × List Nat) :=
  LC3.runLoop fuel { s with running := true } stdin

/-- Predicate: exactly one of the three condition flags is set, i.e. the
flag register holds one of the three singleton masks. -/
def exactly_one_flag (c : Nat) : Prop :=
  c = CondFlag.POSITIVE ∨ c = CondFlag.NEGATIVE ∨ c = CondFlag.ZERO

/-- Memory image with a Branch instruction (nzp = POSITIVE, offset 10) at
the program start. -/
def memBranchEx : Nat → Nat := fun a => if a = 0x3000 then 0x020A else 0

/-- Memory image with a JumpSubRoutineOffset instruction (offset 10) at the
program start. -/
def memJsrEx : Nat → Nat := fun a => if a = 0x3000 then 0x480A else 0

/-- Memory image for the LoadBaseOffset test: the instruction word `0x62BF`
(dr = 1, base_r = 2, 6-bit offset field `0b111111`, i.e. -1) at the program
start, the value 99 at `0x30FF` and the value 55 at `0x2FFF`. -/
def memLboEx : Nat → Nat := fun a =>
  if a = 0x3000 then 0x62BF
  else if a = 0x30FF then 99
  else if a = 0x2FFF then 55
  else 0

/-- Machine for the LoadBaseOffset test, with `registers[2] = 0x3000`. -/
def stLboEx : LC3 :=
  { LC3.new memLboEx with registers := fun r => if r = 2 then 0x3000 else 0 }

/-- Memory image with an AddRegister instruction (`0x1283`: dr = 1,
sr1 = 2, sr2 = 3) at the program start. -/
def memAddEx : Nat → Nat := fun a => if a = 0x3000 then 0x1283 else 0

/-- Machine for the Add wraparound test with both operands `0xFFFF`. -/
def stAddNegEx : LC3 :=
  { LC3.new memAddEx with
    registers := fun r => if r = 2 then 0xFFFF else if r = 3 then 0xFFFF else 0 }

/-- Machine for the Add wraparound test with operands 1 and `0xFFFF`. -/
def stAddZeroEx : LC3 :=
  { LC3.new memAddEx with
    registers := fun r => if r = 2 then 1 else if r = 3 then 0xFFFF else 0 }

/-- Machine used to instantiate universally quantified theorems: a fresh
machine over an all-zero image. -/
def stZero : LC3 := LC3.new (fun _ => 0)

/-- The machine produced by executing `add_immediate` with dr = 1, sr1 = 2,
imm5 = 3 on `stZero` (written out explicitly for use as a witness). -/
def stZeroAdd : LC3 :=
  { stZero with
    cond := CondFlag.POSITIVE
    registers := fun j => if j = 1 then 3 else stZero.registers j }

/-- Memory image with the word 0x8000 (opcode 8, unused) at the program
start. -/
def memOp8 : Nat → Nat := fun a => if a = 0x3000 then 0x8000 else 0

/-- Memory image with the word 0xF000 (Trap with the undefined vector 0x00)
at the program start. -/
def memTrapBad : Nat → Nat := fun a => if a = 0x3000 then 0xF000 else 0

theorem condFor_exactly_one (v : Nat) : exactly_one_flag (condFor v) := by
  unfold condFor exactly_one_flag
  split
  · right; right; rfl
  · split
    · right; left; rfl
    · left; rfl

theorem set_register_flag {s s' : LC3} {r v : Nat}
    (h : s.set_register r v = .ok s') :
    s'.cond = condFor (s'.registers r) ∧ exactly_one_flag s'.cond := by
  unfold LC3.set_register at h
  split at h
  · injection h with h'
    subst h'
    refine ⟨by simp, ?_⟩
    exact condFor_exactly_one v
  · cases h

/-- Claim C10: a freshly constructed machine has all 8 general registers
equal to 0, condition flag ZERO (so the exactly-one-flag invariant holds
before any instruction executes), PC equal to 0x3000, and running false,
for every initial memory image. -/
theorem new_machine_initial_state (memory : Nat → Nat) :
    (LC3.new memory).pc = 0x3000 ∧
    (∀ r, r < REGISTER_COUNT → (LC3.new memory).registers r = 0) ∧
    (LC3.new memory).cond = CondFlag.ZERO ∧
    exactly_one_flag (LC3.new memory).cond ∧
    (LC3.new memory).running = false := by
  refine ⟨rfl, fun r _ => rfl, rfl, ?_, rfl⟩
  right; right; rfl

/-- Witness for C10 at the all-zero image and register 0. -/
theorem new_machine_initial_state_witness :
    (LC3.new (fun _ => 0)).pc = 0x3000 ∧
    (LC3.new (fun _ => 0)).registers 0 = 0 ∧
    (LC3.new (fun _ => 0)).cond = CondFlag.ZERO ∧
    (LC3.new (fun _ => 0)).running = false := by
  have h := new_machine_initial_state (fun _ => 0)
  exact ⟨h.1, h.2.1 0 (by decide), h.2.2.1, h.2.2.2.2⟩

/-- Claim C4 (code_bug evidence): memory is an array of 65535 words, not
65536, so the fetch in `step()` at the valid 16-bit address 0xFFFF is OUT of
bounds and panics, contradicting the claim that every address 0..65535 is in
bounds. -/
theorem fetch_at_address_ffff_panics :
    MAX_MEMORY_SIZE = 65535 ∧
    LC3.step { LC3.new (fun _ => 0) with pc := 0xFFFF } [] =
      .error Panic.indexOutOfBounds := by
  exact ⟨rfl, rfl⟩

/-- Claim C5 (code_bug evidence): `get_pc_offset11` sign-extends the 11-bit
field with original length 9, i.e. it inspects bit 8 instead of bit 10. For
the word 0x4900 (field 0x100: bit 8 set, bit 10 clear) it produces 0xFF00
where the claim requires the non-negative value 0x100; for 0x4C00 (field
0x400: bit 10 set) it produces 0x400 where the claim requires 0xFC00. -/
theorem pc_offset11_sign_extension_wrong :
    Instruction.decode 0x4900 =
      .ok (.JumpSubRoutineOffset { pc_offset11 := 0xFF00 }) ∧
    Instruction.decode 0x4C00 =
      .ok (.JumpSubRoutineOffset { pc_offset11 := 0x400 }) ∧
    get_pc_offset11 0x4900 = 0xFF00 ∧
    get_pc_offset11 0x4C00 = 0x400 := by
  exact ⟨rfl, rfl, rfl, rfl⟩

/-- Claim C6 (code_bug evidence): `get_base_r` extracts only bits 6..7, so
the word 0xC100 (Jump with 3-bit base_r field 4 at bits 6..8) decodes with
base_r = 0, not 4 as the claim requires. -/
theorem base_r_decoded_as_two_bits :
    Instruction.decode 0xC100 = .ok (.Jump { base_r := 0 }) ∧
    get_base_r 0xC100 = 0 := by
  exact ⟨rfl, rfl⟩

/-- Claim C1 (code_bug evidence): the decode/encode round trip fails, e.g.
for `Jump { base_r := 4 }`. The first conjunct uses the little-endian model
of `to_be` (encode byte-swaps, decode does not swap back); the second
conjunct shows that even after undoing the byte swap (i.e. on a big-endian
target where `to_be` is the identity) the instruction decodes to
`Jump { base_r := 0 }`, because `get_base_r` drops bit 8. -/
theorem decode_encode_roundtrip_fails :
    Instruction.decode (Instruction.encode (.Jump { base_r := 4 })) ≠
      .ok (.Jump { base_r := 4 }) ∧
    Instruction.decode (u16_to_be (Instruction.encode (.Jump { base_r := 4 }))) ≠
      .ok (.Jump { base_r := 4 }) := by
  constructor
  · intro h
    have h1 : Instruction.decode (Instruction.encode (.Jump { base_r := 4 })) =
        .ok (.Branch { nzp := 0, pc_offset9 := 0xC1 }) := rfl
    rw [h1] at h
    simp at h
  · intro h
    have h2 : Instruction.decode
        (u16_to_be (Instruction.encode (.Jump { base_r := 4 }))) =
        .ok (.Jump { base_r := 0 }) := rfl
    rw [h2] at h
    simp at h

/-- Claim C7 (code_bug evidence): executing the LoadBaseOffset word 0x62BF
(6-bit offset field `0b111111`, i.e. -1) with `registers[2] = 0x3000` loads
from address 0x30FF (base plus the ZERO-extended truncated byte 0xFF), not
from 0x2FFF (base plus the sign-extended offset -1) as the claim requires:
the destination register receives memory[0x30FF] = 99, not
memory[0x2FFF] = 55. -/
theorem load_base_offset_zero_extends_offset :
    Instruction.decode 0x62BF =
      .ok (.LoadBaseOffset { dr := 1, base_r := 2, pc_offset6 := 0xFF }) ∧
    (stLboEx.step []).map
        (fun r : LC3 × List Nat × List Nat => r.1.registers 1) = .ok 99 ∧
    memLboEx 0x30FF = 99 ∧ memLboEx 0x2FFF = 55 := by
  exact ⟨rfl, rfl, rfl, rfl⟩

theorem readReg_ok {s : LC3} {r : Nat} (h : r < REGISTER_COUNT) :
    readReg s r = .ok (s.registers r) := if_pos h

theorem set_register_eq {s : LC3} {r v : Nat} (h : r < REGISTER_COUNT) :
    LC3.set_register s r v =
      .ok { s with
            cond := condFor v
            registers := fun j => if j = r then v else s.registers j } :=
  if_pos h

/-- Claim C3 counterexample: executing JumpSubRoutineOffset on a fresh
machine writes the positive value 0x3001 into register 7 but leaves the
condition flag at ZERO; the flag is not derived from the written value,
which would give POSITIVE. -/
theorem jsr_link_write_leaves_flags_stale :
    ((LC3.new memJsrEx).step []).map
        (fun r : LC3 × List Nat × List Nat => (r.1.registers 7, r.1.cond)) =
      .ok (0x3001, CondFlag.ZERO) ∧
    condFor 0x3001 = CondFlag.POSITIVE ∧
    CondFlag.ZERO ≠ CondFlag.POSITIVE := by
  exact ⟨rfl, rfl, by decide⟩

/-- Claim C3 as amended: every register write that goes through
`set_register` (the destination writes of Add, And, Not and the Load family)
leaves exactly one condition flag set, derived from the written value; but
the JumpSubRoutine link writes to register 7 and the GetC/In trap writes to
register 0 bypass `set_register` and leave the flags unchanged. -/
theorem flags_updated_exactly_by_set_register :
    (∀ s i s', LC3.add_immediate s i = .ok s' →
      s'.cond = condFor (s'.registers i.dr) ∧ exactly_one_flag s'.cond) ∧
    (∀ s i s', LC3.add_register s i = .ok s' →
      s'.cond = condFor (s'.registers i.dr) ∧ exactly_one_flag s'.cond) ∧
    (∀ s i s', LC3.and_immediate s i = .ok s' →
      s'.cond = condFor (s'.registers i.dr) ∧ exactly_one_flag s'.cond) ∧
    (∀ s i s', LC3.and_register s i = .ok s' →
      s'.cond = condFor (s'.registers i.dr) ∧ exactly_one_flag s'.cond) ∧
    (∀ s i s', LC3.not s i = .ok s' →
      s'.cond = condFor (s'.registers i.dr) ∧ exactly_one_flag s'.cond) ∧
    (∀ s i s', LC3.load s i = .ok s' →
      s'.cond = condFor (s'.registers i.dr) ∧ exactly_one_flag s'.cond) ∧
    (∀ s i s', LC3.load_indirect s i = .ok s' →
      s'.cond = condFor (s'.registers i.dr) ∧ exactly_one_flag s'.cond) ∧
    (∀ s i s', LC3.load_base_offset s i = .ok s' →
      s'.cond = condFor (s'.registers i.dr) ∧ exactly_one_flag s'.cond) ∧
    (∀ s i s', LC3.load_effective_address s i = .ok s' →
      s'.cond = condFor (s'.registers i.dr) ∧ exactly_one_flag s'.cond) ∧
    (∀ s i, (LC3.jump_subroutine_offset s i).cond = s.cond ∧
      (LC3.jump_subroutine_offset s i).registers 7 = s.pc) ∧
    (∀ s i s', LC3.jump_subroutine_register s i = .ok s' →
      s'.cond = s.cond ∧ s'.registers 7 = s.pc) ∧
    (∀ s c rest, (LC3.trap s { vect8 := .GetC } (c :: rest)).map
        (fun r : LC3 × List Nat × List Nat => (r.1.cond, r.1.registers 0)) =
      .ok (s.cond, c)) ∧
    (∀ s c rest, (LC3.trap s { vect8 := .In } (c :: rest)).map
        (fun r : LC3 × List Nat × List Nat => (r.1.cond, r.1.registers 0)) =
      .ok (s.cond, c)) := by
  refine ⟨?_, ?_, ?_, ?_, ?_, ?_, ?_, ?_, ?_, ?_, ?_, ?_, ?_⟩
  · intro s i s' h
    unfold LC3.add_immediate at h
    split at h
    · simp at h
    · exact set_register_flag h
  · intro s i s' h
    unfold LC3.add_register at h
    split at h
    · simp at h
    · split at h
      · simp at h
      · exact set_register_flag h
  · intro s i s' h
    unfold LC3.and_immediate at h
    split at h
    · simp at h
    · exact set_register_flag h
  · intro s i s' h
    unfold LC3.and_register at h
    split at h
    · simp at h
    · split at h
      · simp at h
      · exact set_register_flag h
  · intro s i s' h
    unfold LC3.not at h
    split at h
    · simp at h
    · exact set_register_flag h
  · intro s i s' h
    unfold LC3.load at h
    dsimp only at h
    split at h
    · simp at h
    · exact set_register_flag h
  · intro s i s' h
    unfold LC3.load_indirect at h
    split at h
    · simp at h
    · split at h
      · simp at h
      · exact set_register_flag h
  · intro s i s' h
    unfold LC3.load_base_offset at h
    split at h
    · simp at h
    · dsimp only at h
      split at h
      · simp at h
      · exact set_register_flag h
  · intro s i s' h
    exact set_register_flag h
  · intro s i
    exact ⟨rfl, by simp [LC3.jump_subroutine_offset]⟩
  · intro s i s' h
    unfold LC3.jump_subroutine_register at h
    dsimp only at h
    split at h
    · simp at h
    · injection h with h'
      subst h'
      exact ⟨rfl, by simp⟩
  · intro s c rest
    rfl
  · intro s c rest
    rfl

/-- Witness for the amended C3, instantiating the `add_immediate` conjunct
at a concrete machine and instruction. -/
theorem flags_updated_exactly_by_set_register_witness :
    LC3.add_immediate stZero { dr := 1, sr1 := 2, imm5 := 3 } = .ok stZeroAdd ∧
    stZeroAdd.cond = condFor (stZeroAdd.registers 1) ∧
    exactly_one_flag stZeroAdd.cond := by
  have h : LC3.add_immediate stZero { dr := 1, sr1 := 2, imm5 := 3 } =
      .ok stZeroAdd := rfl
  have h2 := flags_updated_exactly_by_set_register.1 stZero
    { dr := 1, sr1 := 2, imm5 := 3 } stZeroAdd h
  exact ⟨h, h2.1, h2.2⟩

/-- Claim C8: Branch adds `pc_offset9` to the post-increment PC exactly when
the instruction's nzp mask intersects the current condition flag, with
16-bit wraparound; concretely, from PC 0x3000 with cond POSITIVE the Branch
word 0x020A (nzp = POSITIVE, offset 10) advances the PC to 0x300B (11 past
the pre-fetch value), while with cond NEGATIVE it advances only to 0x3001. -/
theorem branch_gating :
    (∀ s i, 0 < i.nzp &&& s.cond →
      (LC3.branch s i).pc = (s.pc + i.pc_offset9) % 65536) ∧
    (∀ s i, i.nzp &&& s.cond = 0 → LC3.branch s i = s) ∧
    (({ LC3.new memBranchEx with cond := CondFlag.POSITIVE }).step []).map
        (fun r : LC3 × List Nat × List Nat => r.1.pc) = .ok 0x300B ∧
    (({ LC3.new memBranchEx with cond := CondFlag.NEGATIVE }).step []).map
        (fun r : LC3 × List Nat × List Nat => r.1.pc) = .ok 0x3001 := by
  refine ⟨?_, ?_, rfl, rfl⟩
  · intro s i h
    unfold LC3.branch
    rw [if_pos h]
  · intro s i h
    unfold LC3.branch
    rw [if_neg (by omega)]

/-- Witness for C8's quantified conjuncts at concrete inputs. -/
theorem branch_gating_witness :
    (LC3.branch { stZero with cond := CondFlag.POSITIVE }
        { nzp := 1, pc_offset9 := 10 }).pc =
      (({ stZero with cond := CondFlag.POSITIVE } : LC3).pc + 10) % 65536 ∧
    LC3.branch { stZero with cond := CondFlag.NEGATIVE }
        { nzp := 1, pc_offset9 := 10 } =
      { stZero with cond := CondFlag.NEGATIVE } := by
  exact ⟨branch_gating.1 _ _ (by decide), branch_gating.2.1 _ _ (by decide)⟩

/-- Claim C9: AddRegister and AddImmediate perform a 16-bit wraparound
addition and update the flags from the written value; concretely,
0xFFFF + 0xFFFF gives 0xFFFE with the NEGATIVE flag, and 1 + 0xFFFF gives 0
with the ZERO flag. -/
theorem add_wraparound :
    (∀ s (i : AddRegister), i.dr < REGISTER_COUNT → i.sr1 < REGISTER_COUNT →
      i.sr2 < REGISTER_COUNT →
      (LC3.add_register s i).map (fun t => (t.registers i.dr, t.cond)) =
        .ok ((s.registers i.sr1 + s.registers i.sr2) % 65536,
             condFor ((s.registers i.sr1 + s.registers i.sr2) % 65536))) ∧
    (∀ s (i : AddImmediate), i.dr < REGISTER_COUNT → i.sr1 < REGISTER_COUNT →
      (LC3.add_immediate s i).map (fun t => (t.registers i.dr, t.cond)) =
        .ok ((s.registers i.sr1 + i.imm5) % 65536,
             condFor ((s.registers i.sr1 + i.imm5) % 65536))) ∧
    (stAddNegEx.step []).map
        (fun r : LC3 × List Nat × List Nat => (r.1.registers 1, r.1.cond)) =
      .ok (0xFFFE, CondFlag.NEGATIVE) ∧
    (stAddZeroEx.step []).map
        (fun r : LC3 × List Nat × List Nat => (r.1.registers 1, r.1.cond)) =
      .ok (0, CondFlag.ZERO) := by
  refine ⟨?_, ?_, rfl, rfl⟩
  · intro s i h1 h2 h3
    simp [LC3.add_register, readReg_ok h2, readReg_ok h3, set_register_eq h1,
          Except.map]
  · intro s i h1 h2
    simp [LC3.add_immediate, readReg_ok h2, set_register_eq h1, Except.map]

/-- Witness for C9's quantified conjuncts at concrete inputs. -/
theorem add_wraparound_witness :
    (LC3.add_register stAddNegEx { dr := 1, sr1 := 2, sr2 := 3 }).map
        (fun t => (t.registers 1, t.cond)) =
      .ok ((stAddNegEx.registers 2 + stAddNegEx.registers 3) % 65536,
           condFor ((stAddNegEx.registers 2 + stAddNegEx.registers 3) % 65536)) ∧
    (LC3.add_immediate stZero { dr := 1, sr1 := 2, imm5 := 0xFFFF }).map
        (fun t => (t.registers 1, t.cond)) =
      .ok ((stZero.registers 2 + 0xFFFF) % 65536,
           condFor ((stZero.registers 2 + 0xFFFF) % 65536)) := by
  exact ⟨add_wraparound.1 stAddNegEx { dr := 1, sr1 := 2, sr2 := 3 }
           (by decide) (by decide) (by decide),
         add_wraparound.2.1 stZero { dr := 1, sr1 := 2, imm5 := 0xFFFF }
           (by decide) (by decide)⟩

theorem decode_err_of_opcode8 {w : Nat} (h : get_opcode w = 8) :
    Instruction.decode w = .error .unrecognizedOpcode := by
  unfold Instruction.decode OpCode.from_instruction
  rw [h]

theorem decode_err_of_opcode13 {w : Nat} (h : get_opcode w = 13) :
    Instruction.decode w = .error .unrecognizedOpcode := by
  unfold Instruction.decode OpCode.from_instruction
  rw [h]

theorem decode_err_of_bad_trap {w : Nat} (h15 : get_opcode w = 15)
    (hbad : ¬(0x20 ≤ w &&& 0xFF ∧ w &&& 0xFF ≤ 0x25)) :
    Instruction.decode w = .error .unrecognizedTrapCode := by
  unfold Instruction.decode OpCode.from_instruction
  rw [h15]
  unfold Trap.decode get_trap_vect8 TrapCode.from_bits get_bit_field
  have e0 : (w >>> 0) &&& (2 ^ (8 - 0) - 1) = w &&& 0xFF := by
    simp [Nat.shiftRight_zero]
  rw [e0]
  have h1 : w &&& 0xFF ≠ 0x20 := fun hc => hbad ⟨by omega, by omega⟩
  have h2 : w &&& 0xFF ≠ 0x21 := fun hc => hbad ⟨by omega, by omega⟩
  have h3 : w &&& 0xFF ≠ 0x22 := fun hc => hbad ⟨by omega, by omega⟩
  have h4 : w &&& 0xFF ≠ 0x23 := fun hc => hbad ⟨by omega, by omega⟩
  have h5 : w &&& 0xFF ≠ 0x24 := fun hc => hbad ⟨by omega, by omega⟩
  have h6 : w &&& 0xFF ≠ 0x25 := fun hc => hbad ⟨by omega, by omega⟩
  simp [h1, h2, h3, h4, h5, h6]

theorem step_err_of_decode_err {s : LC3} {stdin : List Nat} {e : Panic}
    (hpc : s.pc < MAX_MEMORY_SIZE)
    (hd : Instruction.decode (s.memory s.pc) = .error e) :
    LC3.step s stdin = .error e := by
  unfold LC3.step
  rw [show memRead s s.pc = .ok (s.memory s.pc) from if_pos hpc]
  dsimp only
  rw [hd]

/-- Claim C2: decoding a word whose opcode field is 8 or 13 fails with the
unrecognized-opcode panic (the spec's `UnrecognizedOpcode`); decoding a word
with opcode 15 whose low byte is outside 0x20..0x25 fails with the
unrecognized-trap-code panic (the spec's `UnrecognizedTrapCode`); both
propagate as a hard failure that aborts `step()` and `run()` rather than the
instruction being skipped or defaulted. -/
theorem decode_rejection_aborts_execution :
    (∀ w, get_opcode w = 8 →
      Instruction.decode w = .error .unrecognizedOpcode) ∧
    (∀ w, get_opcode w = 13 →
      Instruction.decode w = .error .unrecognizedOpcode) ∧
    (∀ w, get_opcode w = 15 → ¬(0x20 ≤ w &&& 0xFF ∧ w &&& 0xFF ≤ 0x25) →
      Instruction.decode w = .error .unrecognizedTrapCode) ∧
    (∀ s stdin, s.pc < MAX_MEMORY_SIZE →
      (get_opcode (s.memory s.pc) = 8 ∨ get_opcode (s.memory s.pc) = 13) →
      LC3.step s stdin = .error .unrecognizedOpcode) ∧
    (∀ s stdin, s.pc < MAX_MEMORY_SIZE →
      get_opcode (s.memory s.pc) = 15 →
      ¬(0x20 ≤ s.memory s.pc &&& 0xFF ∧ s.memory s.pc &&& 0xFF ≤ 0x25) →
      LC3.step s stdin = .error .unrecognizedTrapCode) ∧
    (∀ s stdin fuel, s.pc < MAX_MEMORY_SIZE →
      (get_opcode (s.memory s.pc) = 8 ∨ get_opcode (s.memory s.pc) = 13) →
      LC3.run s (fuel + 1) stdin = .error .unrecognizedOpcode) := by
  refine ⟨fun w h => decode_err_of_opcode8 h,
          fun w h => decode_err_of_opcode13 h,
          fun w h15 hbad => decode_err_of_bad_trap h15 hbad, ?_, ?_, ?_⟩
  · intro s stdin hpc hop
    refine step_err_of_decode_err hpc ?_
    rcases hop with h | h
    · exact decode_err_of_opcode8 h
    · exact decode_err_of_opcode13 h
  · intro s stdin hpc h15 hbad
    exact step_err_of_decode_err hpc (decode_err_of_bad_trap h15 hbad)
  · intro s stdin fuel hpc hop
    have hd : Instruction.decode (s.memory s.pc) = .error .unrecognizedOpcode := by
      rcases hop with h | h
      · exact decode_err_of_opcode8 h
      · exact decode_err_of_opcode13 h
    have hstep : LC3.step { s with running := true } stdin =
        .error .unrecognizedOpcode :=
      step_err_of_decode_err (s := { s with running := true }) hpc hd
    simp [LC3.run, LC3.runLoop, hstep]

/-- Witness for C2 at concrete words and machines. -/
theorem decode_rejection_aborts_execution_witness :
    Instruction.decode 0x8000 = .error .unrecognizedOpcode ∧
    Instruction.decode 0xD123 = .error .unrecognizedOpcode ∧
    Instruction.decode 0xF000 = .error .unrecognizedTrapCode ∧
    LC3.step (LC3.new memOp8) [] = .error .unrecognizedOpcode ∧
    LC3.step (LC3.new memTrapBad) [] = .error .unrecognizedTrapCode ∧
    LC3.run (LC3.new memOp8) 1 [] = .error .unrecognizedOpcode := by
  have h := decode_rejection_aborts_execution
  exact ⟨h.1 0x8000 (by decide),
         h.2.1 0xD123 (by decide),
         h.2.2.1 0xF000 (by decide) (by decide),
         h.2.2.2.1 (LC3.new memOp8) [] (by decide) (Or.inl (by decide)),
         h.2.2.2.2.1 (LC3.new memTrapBad) [] (by decide) (by decide) (by decide),
         h.2.2.2.2.2 (LC3.new memOp8) [] 0 (by decide) (Or.inl (by decide))⟩

end Lilc3
